import Mathlib

/-!
Shallow embedding of the lifecycle core of `ext/lmdb_ext/lmdb_ext.c`, a
binding over the LMDB storage engine.  Objects (Environment, Transaction,
Database) live in a heap of integer-keyed records, mirroring the C structs
and the pointer links between them.  Calls into the engine are recorded as
events in a trace; engine table contents are modelled as association lists
where a claim needs them.  Ruby exceptions (`rb_raise`) are modelled with
`Except Err`; a non-local jump out of a scoped block (`rb_protect` /
`rb_jump_tag`) is modelled by an `Except Nat` tag.
-/

namespace LmdbExt

/-- Environment flag `MDB_RDONLY` from lmdb.h. -/
def MDB_RDONLY : Int := 131072

/-- Database flag `MDB_CREATE` from lmdb.h. -/
def MDB_CREATE : Int := 262144

/-- The Ruby-level errors the binding raises via `rb_raise`.
`badObject` stands for dereferencing an object id not in the heap, which the
C code cannot express (a `Data_Get_Struct` pointer is assumed valid);
theorems always assume ids are present, so it never occurs there. -/
inductive Err where
  | environmentClosed
  | transactionTerminated
  | databaseClosed
  | cursorClosed
  | badObject
deriving DecidableEq, Repr

/-- The `Environment` struct: nullable engine handle and a reference count. -/
structure EnvRec where
  env : Option Nat
  refcount : Int
deriving DecidableEq, Repr

/-- The `Transaction` struct: nullable engine txn handle, reference count,
optional parent link and the owning environment link (`venv`/`environment`
collapse to one id, as do `vparent`/`parent`). -/
structure TxnRec where
  txn : Option Nat
  refcount : Int
  parent : Option Nat
  envId : Nat
deriving DecidableEq, Repr

/-- The `Database` struct: engine table handle `dbi`, the opening
transaction link (`vtxn`/`transaction`) and the open flag. -/
structure DbRec where
  dbi : Nat
  txnId : Nat
  open_flag : Bool
deriving DecidableEq, Repr

/-- The `Cursor` struct: nullable engine cursor handle and the owning
transaction link (`vtxn`/`transaction`). -/
structure CurRec where
  cur : Option Nat
  txnId : Nat
deriving DecidableEq, Repr

/-- Trace of calls made into the engine (and their arguments). -/
inductive Event where
  | txn_begin (envh : Option Nat) (parenth : Option Nat) (flags : Int) (newh : Nat)
  | txn_commit (h : Option Nat)
  | txn_abort (h : Option Nat)
  | txn_reset (h : Option Nat)
  | txn_renew (h : Option Nat)
  | env_close (h : Option Nat)
  | env_sync (h : Option Nat) (force : Int)
  | env_create (newh : Nat)
  | env_set_maxreaders (n : Int)
  | env_set_mapsize (n : Nat)
  | env_set_maxdbs (n : Int)
  | env_open_call (path : String) (flags : Int) (mode : Int)
  | env_stat (h : Option Nat)
  | env_info (h : Option Nat)
  | env_copy (h : Option Nat) (path : String)
  | env_get_path (h : Option Nat)
  | env_get_flags (h : Option Nat)
  | dbi_open (txnh : Option Nat) (name : String) (flags : Int) (newdbi : Nat)
  | mdb_drop_call (txnh : Option Nat) (dbi : Nat) (del : Int)
  | cursor_close_call (h : Option Nat)
deriving DecidableEq, Repr

/-- Global state: the object heaps, the engine's named tables, a freshness
counter for allocating ids and engine handles, and the engine-call trace. -/
structure State where
  envs : List (Nat × EnvRec)
  txns : List (Nat × TxnRec)
  dbs : List (Nat × DbRec)
  curs : List (Nat × CurRec)
  tables : List (Nat × List (String × String))
  fresh : Nat
  events : List Event
deriving DecidableEq, Repr

/-- First-match association-list lookup (a pointer dereference). -/
def alookup {α : Type} (l : List (Nat × α)) (k : Nat) : Option α :=
  match l with
  | [] => none
  | (k2, v) :: rest => if k2 = k then some v else alookup rest k

/-- In-place update of every entry with key `k` (a store through a pointer);
a missing key leaves the list unchanged. -/
def setEntry {α : Type} (l : List (Nat × α)) (k : Nat) (v : α) : List (Nat × α) :=
  match l with
  | [] => []
  | (k2, v2) :: rest => (if k2 = k then (k, v) else (k2, v2)) :: setEntry rest k v

/-- Remove every entry with key `k` (a `free`). -/
def delEntry {α : Type} (l : List (Nat × α)) (k : Nat) : List (Nat × α) :=
  match l with
  | [] => []
  | (k2, v2) :: rest => if k2 = k then delEntry rest k else (k2, v2) :: delEntry rest k

/-- Append an engine call to the trace. -/
def emit (s : State) (e : Event) : State :=
  { s with events := s.events ++ [e] }

/-- The loop body of `transaction_active` (lmdb_ext.c:311-318), with fuel to
express the pointer walk `for (parent = transaction; parent; parent =
parent->parent)`.  Under `wfTxns` the fuel `i + 1` always suffices. -/
def activeAux (τ : List (Nat × TxnRec)) : Nat → Nat → Bool
  | 0, _ => false
  | fuel + 1, i =>
    match alookup τ i with
    | none => false
    | some r =>
      if r.txn.isNone then false
      else
        match r.parent with
        | none => true
        | some p => activeAux τ fuel p

/-- `transaction_active` (lmdb_ext.c:311-318): walks the ancestor chain and
returns false iff some transaction on it has a null engine handle. -/
def transaction_active (τ : List (Nat × TxnRec)) (i : Nat) : Bool :=
  activeAux τ (i + 1) i

/-- Heap well-formedness: every parent link points to a strictly smaller id
that is present in the heap (parents are created before children, so the C
pointer graph is acyclic; ids grow with allocation order). -/
def wfTxns (τ : List (Nat × TxnRec)) : Bool :=
  τ.all fun ir =>
    match ir.2.parent with
    | none => true
    | some p => decide (p < ir.1) && (alookup τ p).isSome

/-- `transaction_check` (lmdb_ext.c:320-323): raise iff the chain is not
active. -/
def transaction_check (τ : List (Nat × TxnRec)) (i : Nat) : Except Err Unit :=
  if transaction_active τ i then Except.ok () else Except.error Err.transactionTerminated

/-- `environment_check` (lmdb_ext.c:145-148): raise iff the handle is null. -/
def environment_check (e : EnvRec) : Except Err Unit :=
  if e.env.isNone then Except.error Err.environmentClosed else Except.ok ()

/-- The `ENVIRONMENT` macro (lmdb_ext.c:17-20): dereference the object and
run `environment_check`. -/
def getEnv (s : State) (e : Nat) : Except Err EnvRec :=
  match alookup s.envs e with
  | none => Except.error Err.badObject
  | some r => do
    environment_check r
    Except.ok r

/-- The `TRANSACTION` macro (lmdb_ext.c:22-25): dereference the object and
run `transaction_check`. -/
def getTxn (s : State) (t : Nat) : Except Err TxnRec :=
  match alookup s.txns t with
  | none => Except.error Err.badObject
  | some r => do
    transaction_check s.txns t
    Except.ok r

/-- `environment_close` (lmdb_ext.c:158-163): guard check, close the engine
handle, null the field.  The refcount is untouched. -/
def environment_close (s : State) (e : Nat) : Except Err State := do
  let r ← getEnv s e
  let s := emit s (Event.env_close r.env)
  Except.ok { s with envs := setEntry s.envs e { r with env := none } }

/-- `environment_stat` (lmdb_ext.c:165-171), engine result out of model. -/
def environment_stat (s : State) (e : Nat) : Except Err State := do
  let r ← getEnv s e
  Except.ok (emit s (Event.env_stat r.env))

/-- `environment_info` (lmdb_ext.c:173-181), engine result out of model. -/
def environment_info (s : State) (e : Nat) : Except Err State := do
  let r ← getEnv s e
  Except.ok (emit s (Event.env_info r.env))

/-- `environment_copy` (lmdb_ext.c:183-187). -/
def environment_copy (s : State) (e : Nat) (path : String) : Except Err State := do
  let r ← getEnv s e
  Except.ok (emit s (Event.env_copy r.env path))

/-- `environment_path` (lmdb_ext.c:257-262), engine result out of model. -/
def environment_path (s : State) (e : Nat) : Except Err State := do
  let r ← getEnv s e
  Except.ok (emit s (Event.env_get_path r.env))

/-- `environment_flags` (lmdb_ext.c:250-255), engine result out of model. -/
def environment_flags (s : State) (e : Nat) : Except Err State := do
  let r ← getEnv s e
  Except.ok (emit s (Event.env_get_flags r.env))

/-- `environment_sync` (lmdb_ext.c:189-197).  `force` is `none` when the
argument is absent, `some b` when present with truthiness `b` (`RTEST`);
the engine receives `n == 1 && RTEST(force) ? 0 : 1`. -/
def environment_sync (s : State) (e : Nat) (force : Option Bool) : Except Err State := do
  let r ← getEnv s e
  Except.ok (emit s (Event.env_sync r.env (if force.getD false then 0 else 1)))

/-- The recognized keys of the options hash of `environment_open`;
`none` models an absent key (`NIL_P(value)`). -/
structure OpenOptions where
  flags : Option Int := none
  mode : Option Int := none
  maxreaders : Option Int := none
  maxdbs : Option Int := none
  mapsize : Option Nat := none
deriving DecidableEq, Repr

/-- `environment_open` (lmdb_ext.c:199-248), non-block path with all engine
setup calls succeeding: parse options against the C defaults
(`flags = 0, maxreaders = -1, maxdbs = 10, mapsize = 0, mode = 0755`),
create the engine env, build the wrapper with refcount 1, apply
`maxreaders`/`mapsize` only when positive, clamp a non-positive `maxdbs`
to 1, then open.  Returns the new environment id. -/
def environment_open (s : State) (path : String) (options : Option OpenOptions) :
    State × Nat :=
  let flags : Int := match options with | some o => o.flags.getD 0 | none => 0
  let mode : Int := match options with | some o => o.mode.getD 493 | none => 493
  let maxreaders : Int := match options with | some o => o.maxreaders.getD (-1) | none => -1
  let maxdbs : Int := match options with | some o => o.maxdbs.getD 10 | none => 10
  let mapsize : Nat := match options with | some o => o.mapsize.getD 0 | none => 0
  let h := s.fresh
  let eid := s.fresh + 1
  let s := { s with fresh := s.fresh + 2 }
  let s := emit s (Event.env_create h)
  let s := { s with envs := s.envs ++ [(eid, { env := some h, refcount := 1 })] }
  let s := if maxreaders > 0 then emit s (Event.env_set_maxreaders maxreaders) else s
  let s := if mapsize > 0 then emit s (Event.env_set_mapsize mapsize) else s
  let s := emit s (Event.env_set_maxdbs (if maxdbs ≤ 0 then 1 else maxdbs))
  let s := emit s (Event.env_open_call path flags mode)
  (s, eid)

/-- The engine transaction handle currently stored in a transaction record
(reading `transaction->txn` through the pointer). -/
def txnHandleOf (s : State) (t : Nat) : Option Nat :=
  match alookup s.txns t with
  | some r => r.txn
  | none => none

/-- Store null into `transaction->txn`. -/
def nullTxnHandle (s : State) (t : Nat) : State :=
  match alookup s.txns t with
  | some r => { s with txns := setEntry s.txns t { r with txn := none } }
  | none => s

/-- A scoped-block body: receives the new transaction id and the state,
returns the new state and either a value or a raised exception tag
(`rb_protect`). -/
def Block : Type := Nat → State → State × Except Nat Nat

/-- The scoped-block tail shared verbatim by `environment_transaction`
(lmdb_ext.c:292-303) and `transaction_transaction` (lmdb_ext.c:394-405):
without a block return the transaction id; with one, run the body, then on
an exception abort, null the handle and re-raise the same tag
(`rb_jump_tag`), and on normal return commit, null the handle and return
the body's value. -/
def scoped_block_finish (s : State) (tid : Nat) (block : Option Block) :
    Except Nat Nat × State :=
  match block with
  | none => (Except.ok tid, s)
  | some body =>
    match body tid s with
    | (s2, Except.error tag) =>
      (Except.error tag, nullTxnHandle (emit s2 (Event.txn_abort (txnHandleOf s2 tid))) tid)
    | (s2, Except.ok v) =>
      (Except.ok v, nullTxnHandle (emit s2 (Event.txn_commit (txnHandleOf s2 tid))) tid)

/-- `environment_transaction` (lmdb_ext.c:273-305): guard check, begin an
engine transaction (read-only iff the argument was given non-nil), build a
root Transaction with refcount 1 and no parent, bump the environment's
refcount, then run the scoped-block tail.  The `ok` payload is the new
transaction id (no block) or the block's value. -/
def environment_transaction (s : State) (e : Nat) (readonly : Option Bool)
    (block : Option Block) : Except Err (Except Nat Nat × State) := do
  let envRec ← getEnv s e
  let flags : Int := if readonly.isSome then MDB_RDONLY else 0
  let h := s.fresh
  let tid := s.fresh + 1
  let s := { s with fresh := s.fresh + 2 }
  let s := emit s (Event.txn_begin envRec.env none flags h)
  let s := { s with txns := s.txns ++ [(tid, ({ txn := some h, refcount := 1, parent := none, envId := e } : TxnRec))] }
  let s := { s with envs := setEntry s.envs e { envRec with refcount := envRec.refcount + 1 } }
  Except.ok (scoped_block_finish s tid block)

/-- `transaction_transaction` (lmdb_ext.c:378-407): validity check, begin a
nested engine transaction under this one, build a child with refcount 1
linked to this transaction and its environment, bump the environment's
refcount (the code does not bump the parent transaction's), then run the
scoped-block tail. -/
def transaction_transaction (s : State) (t : Nat) (block : Option Block) :
    Except Err (Except Nat Nat × State) := do
  let r ← getTxn s t
  let envh : Option Nat := match alookup s.envs r.envId with
    | some er => er.env
    | none => none
  let h := s.fresh
  let tid := s.fresh + 1
  let s := { s with fresh := s.fresh + 2 }
  let s := emit s (Event.txn_begin envh r.txn 0 h)
  let s := { s with txns := s.txns ++ [(tid, ({ txn := some h, refcount := 1, parent := some t, envId := r.envId } : TxnRec))] }
  let s := match alookup s.envs r.envId with
    | some er => { s with envs := setEntry s.envs r.envId { er with refcount := er.refcount + 1 } }
    | none => s
  Except.ok (scoped_block_finish s tid block)

/-- `transaction_environment` (lmdb_ext.c:342-345): note that the
`TRANSACTION` macro runs `transaction_check` before returning `venv`. -/
def transaction_environment (s : State) (t : Nat) : Except Err Nat := do
  let r ← getTxn s t
  Except.ok r.envId

/-- `transaction_parent` (lmdb_ext.c:347-350): note that the `TRANSACTION`
macro runs `transaction_check` before returning `vparent`. -/
def transaction_parent (s : State) (t : Nat) : Except Err (Option Nat) := do
  let r ← getTxn s t
  Except.ok r.parent

/-- `transaction_abort` (lmdb_ext.c:352-357): validity check, engine abort,
null this transaction's own handle. -/
def transaction_abort (s : State) (t : Nat) : Except Err State := do
  let r ← getTxn s t
  let s := emit s (Event.txn_abort r.txn)
  Except.ok { s with txns := setEntry s.txns t { r with txn := none } }

/-- `transaction_commit` (lmdb_ext.c:359-364): validity check, engine
commit, null this transaction's own handle. -/
def transaction_commit (s : State) (t : Nat) : Except Err State := do
  let r ← getTxn s t
  let s := emit s (Event.txn_commit r.txn)
  Except.ok { s with txns := setEntry s.txns t { r with txn := none } }

/-- `transaction_renew` (lmdb_ext.c:366-370): validity check, engine renew,
no wrapper field change. -/
def transaction_renew (s : State) (t : Nat) : Except Err State := do
  let r ← getTxn s t
  Except.ok (emit s (Event.txn_renew r.txn))

/-- `transaction_reset` (lmdb_ext.c:372-376): validity check, engine reset,
no wrapper field change. -/
def transaction_reset (s : State) (t : Nat) : Except Err State := do
  let r ← getTxn s t
  Except.ok (emit s (Event.txn_reset r.txn))

/-- `environment_deref` (lmdb_ext.c:150-156): decrement the refcount; at
zero, close the engine handle if still set and free the record. -/
def environment_deref (s : State) (e : Nat) : State :=
  match alookup s.envs e with
  | none => s
  | some r =>
    if r.refcount - 1 = 0 then
      let s := if r.env.isSome then emit s (Event.env_close r.env) else s
      { s with envs := delEntry s.envs e }
    else
      { s with envs := setEntry s.envs e { r with refcount := r.refcount - 1 } }

/-- `transaction_deref` (lmdb_ext.c:331-340): decrement the refcount; at
zero, abort the engine transaction iff the whole chain is still active,
recursively deref the parent (if any), deref the environment, and free the
record.  Fuel bounds the parent recursion; under `wfTxns`, fuel `t + 1`
suffices since parent ids strictly decrease. -/
def transaction_deref : Nat → State → Nat → State
  | 0, s, _ => s
  | fuel + 1, s, t =>
    match alookup s.txns t with
    | none => s
    | some r =>
      if r.refcount - 1 = 0 then
        let s1 := if transaction_active s.txns t then emit s (Event.txn_abort r.txn) else s
        let s2 := match r.parent with
          | some p => transaction_deref fuel s1 p
          | none => s1
        let s3 := environment_deref s2 r.envId
        { s3 with txns := delEntry s3.txns t }
      else
        { s with txns := setEntry s.txns t { r with refcount := r.refcount - 1 } }

/-- `cursor_check` (lmdb_ext.c:560-564) behind the `CURSOR` macro
(lmdb_ext.c:32-35): check the remembered transaction's chain, then require
a non-null cursor handle. -/
def cursor_check (s : State) (c : Nat) : Except Err CurRec :=
  match alookup s.curs c with
  | none => Except.error Err.badObject
  | some cr => do
    transaction_check s.txns cr.txnId
    if cr.cur.isNone then Except.error Err.cursorClosed else Except.ok cr

/-- `cursor_close` (lmdb_ext.c:570-575): usability check, engine close,
null the handle. -/
def cursor_close (s : State) (c : Nat) : Except Err State := do
  let cr ← cursor_check s c
  let s := emit s (Event.cursor_close_call cr.cur)
  Except.ok { s with curs := setEntry s.curs c { cr with cur := none } }

/-- `database_check` (lmdb_ext.c:418-422) behind the `DATABASE` macro
(lmdb_ext.c:27-30): dereference, check the remembered transaction's chain,
then require the open flag. -/
def database_check (s : State) (d : Nat) : Except Err DbRec :=
  match alookup s.dbs d with
  | none => Except.error Err.badObject
  | some db => do
    transaction_check s.txns db.txnId
    if db.open_flag then Except.ok db else Except.error Err.databaseClosed

/-- `database_open` (lmdb_ext.c:435-453), bound as `Transaction#open`:
validity check on the transaction, then `mdb_dbi_open` with the flags
expression `n == 3 ? NUM2INT(vflags) : 0` where `n = rb_scan_args(...,
"11", ...)` — kept exactly as written in the C (`n` is 1 or 2).  Builds a
Database with open flag set and bumps the transaction's refcount.  Returns
the new database id. -/
def database_open (s : State) (t : Nat) (vname : String) (vflags : Option Int) :
    Except Err (Nat × State) := do
  let tr ← getTxn s t
  let n : Nat := if vflags.isSome then 2 else 1
  let passed : Int := if n = 3 then vflags.getD 0 else 0
  let dbi := s.fresh
  let did := s.fresh + 1
  let s := { s with fresh := s.fresh + 2 }
  let s := emit s (Event.dbi_open tr.txn vname passed dbi)
  let s := { s with dbs := s.dbs ++ [(did, ({ dbi := dbi, txnId := t, open_flag := true } : DbRec))] }
  let s := match alookup s.txns t with
    | some r => { s with txns := setEntry s.txns t { r with refcount := r.refcount + 1 } }
    | none => s
  Except.ok (did, s)

/-- Models the engine call `mdb_drop(txn, dbi, del)` at its documented
interface: `del` nonzero deletes the named table from the environment;
`del` zero empties it, keeping the handle. -/
def mdb_drop (tables : List (Nat × List (String × String))) (dbi : Nat) (del : Int) :
    List (Nat × List (String × String)) :=
  if del = 0 then setEntry tables dbi [] else delEntry tables dbi

/-- `database_drop` (lmdb_ext.c:472-479): usability check on the database,
validity check on the argument transaction, `mdb_drop(..., 1)`, then clear
the open flag. -/
def database_drop (s : State) (d : Nat) (t : Nat) : Except Err State := do
  let db ← database_check s d
  let tr ← getTxn s t
  let s := emit s (Event.mdb_drop_call tr.txn db.dbi 1)
  let s := { s with tables := mdb_drop s.tables db.dbi 1 }
  Except.ok { s with dbs := setEntry s.dbs d { db with open_flag := false } }

/-- `database_clear` (lmdb_ext.c:481-487): usability check on the database,
validity check on the argument transaction, `mdb_drop(..., 0)`; no wrapper
field changes. -/
def database_clear (s : State) (d : Nat) (t : Nat) : Except Err State := do
  let db ← database_check s d
  let tr ← getTxn s t
  let s := emit s (Event.mdb_drop_call tr.txn db.dbi 0)
  Except.ok { s with tables := mdb_drop s.tables db.dbi 0 }

/-- Modelled from the spec for comparison with the source (spec §8): "For
all Transactions T, `T.active() == true` iff T's own handle is set AND
`T.parent().active()` (recursively; root case: iff Environment is open)."
Same fuel convention as `activeAux`. -/
def spec_activeAux (s : State) : Nat → Nat → Bool
  | 0, _ => false
  | fuel + 1, i =>
    match alookup s.txns i with
    | none => false
    | some r =>
      r.txn.isSome &&
        (match r.parent with
         | none =>
           (match alookup s.envs r.envId with
            | some er => er.env.isSome
            | none => false)
         | some p => spec_activeAux s fuel p)

/-- The spec's version of the activity check, root case consulting the
Environment's open state. -/
def spec_active (s : State) (i : Nat) : Bool :=
  spec_activeAux s (i + 1) i

/-- A state whose Environment has been closed while a root Transaction
still holds a non-null engine handle. -/
def closedEnvLiveTxn : State :=
  { envs := [(0, { env := none, refcount := 2 })]
  , txns := [(0, { txn := some 7, refcount := 1, parent := none, envId := 0 })]
  , dbs := []
  , curs := []
  , tables := []
  , fresh := 10
  , events := [] }

/-- C1 witness state: a two-level chain under an open environment. -/
def chainState : State :=
  { envs := [(0, { env := some 1, refcount := 3 })]
  , txns := [(0, { txn := some 2, refcount := 1, parent := none, envId := 0 }),
             (1, { txn := some 4, refcount := 1, parent := some 0, envId := 0 })]
  , dbs := []
  , curs := []
  , tables := []
  , fresh := 10
  , events := [] }

/-- A state holding a root transaction that has been terminated (handle
null) while its Environment is still open. -/
def terminatedTxnState : State :=
  { envs := [(0, { env := some 3, refcount := 2 })]
  , txns := [(0, { txn := none, refcount := 1, parent := none, envId := 0 })]
  , dbs := []
  , curs := []
  , tables := []
  , fresh := 10
  , events := [] }

/-- A block body that raises with tag 6. -/
def abortBody : Block := fun _ st => (st, Except.error 6)

/-- A block body that returns 99 normally. -/
def commitBody : Block := fun _ st => (st, Except.ok 99)

/-- The state after `environment_transaction chainState 0 none none`
creates transaction 11. -/
def envTxnCreated : State :=
  { envs := [(0, { env := some 1, refcount := 4 })]
  , txns := [(0, { txn := some 2, refcount := 1, parent := none, envId := 0 }),
             (1, { txn := some 4, refcount := 1, parent := some 0, envId := 0 }),
             (11, { txn := some 10, refcount := 1, parent := none, envId := 0 })]
  , dbs := []
  , curs := []
  , tables := []
  , fresh := 12
  , events := [Event.txn_begin (some 1) none 0 10] }

/-- The state after `transaction_transaction chainState 0 none` creates
nested transaction 11 under transaction 0. -/
def nestedTxnCreated : State :=
  { envs := [(0, { env := some 1, refcount := 4 })]
  , txns := [(0, { txn := some 2, refcount := 1, parent := none, envId := 0 }),
             (1, { txn := some 4, refcount := 1, parent := some 0, envId := 0 }),
             (11, { txn := some 10, refcount := 1, parent := some 0, envId := 0 })]
  , dbs := []
  , curs := []
  , tables := []
  , fresh := 12
  , events := [Event.txn_begin (some 1) (some 2) 0 10] }

/-- A state where a child transaction still holds a non-null handle but its
parent is already terminated, both with refcount 1. -/
def derefOrphanState : State :=
  { envs := [(0, { env := some 1, refcount := 3 })]
  , txns := [(0, { txn := none, refcount := 1, parent := none, envId := 0 }),
             (1, { txn := some 5, refcount := 1, parent := some 0, envId := 0 })]
  , dbs := []
  , curs := []
  , tables := []
  , fresh := 10
  , events := [] }

/-- C3 witness state: an active two-level chain where parent and
environment hold extra references. -/
def derefActiveState : State :=
  { envs := [(0, { env := some 1, refcount := 3 })]
  , txns := [(0, { txn := some 2, refcount := 2, parent := none, envId := 0 }),
             (1, { txn := some 5, refcount := 1, parent := some 0, envId := 0 })]
  , dbs := []
  , curs := []
  , tables := []
  , fresh := 10
  , events := [] }

/-- A state with a usable Database over an active root transaction, and a
populated engine table. -/
def dbState : State :=
  { envs := [(0, { env := some 1, refcount := 3 })]
  , txns := [(0, { txn := some 2, refcount := 2, parent := none, envId := 0 })]
  , dbs := [(0, { dbi := 7, txnId := 0, open_flag := true })]
  , curs := []
  , tables := [(7, [("k", "v")])]
  , fresh := 10
  , events := [] }

theorem alookup_mem {α : Type} {l : List (Nat × α)} {k : Nat} {v : α}
    (h : alookup l k = some v) : (k, v) ∈ l := by
  induction l with
  | nil => simp [alookup] at h
  | cons hd tl ih =>
    obtain ⟨k2, v2⟩ := hd
    rw [alookup] at h
    by_cases hk : k2 = k
    · simp only [hk, if_true, Option.some.injEq] at h
      subst hk h
      exact List.mem_cons_self _ _
    · simp only [hk, if_false] at h
      exact List.mem_cons_of_mem _ (ih h)

theorem wfTxns_parent {τ : List (Nat × TxnRec)} {i p : Nat} {r : TxnRec}
    (hwf : wfTxns τ = true) (hl : alookup τ i = some r) (hp : r.parent = some p) :
    p < i ∧ (alookup τ p).isSome := by
  have hmem := alookup_mem hl
  have := (List.all_eq_true.mp hwf) (i, r) hmem
  simp only [hp] at this
  simpa using this

/-- The fuel in `activeAux` is irrelevant once it exceeds the start id,
because parent ids strictly decrease along a well-formed chain. -/
theorem activeAux_fuel {τ : List (Nat × TxnRec)} (hwf : wfTxns τ = true) :
    ∀ i f1 f2, i < f1 → i < f2 → activeAux τ f1 i = activeAux τ f2 i := by
  intro i
  induction i using Nat.strong_induction_on with
  | _ i ih =>
    intro f1 f2 h1 h2
    obtain ⟨g1, rfl⟩ := Nat.exists_eq_add_of_lt h1
    obtain ⟨g2, rfl⟩ := Nat.exists_eq_add_of_lt h2
    rw [show i + g1 + 1 = (i + g1) + 1 from rfl, show i + g2 + 1 = (i + g2) + 1 from rfl]
    rw [activeAux, activeAux]
    cases hl : alookup τ i with
    | none => rfl
    | some r =>
      by_cases ht : r.txn.isNone
      · simp [ht]
      · simp only [ht, if_false]
        cases hp : r.parent with
        | none => rfl
        | some p =>
          have hpi := (wfTxns_parent hwf hl hp).1
          exact ih p hpi _ _ (Nat.lt_of_lt_of_le hpi (Nat.le_add_right i g1))
            (Nat.lt_of_lt_of_le hpi (Nat.le_add_right i g2))

theorem alookup_setEntry_self {α : Type} {l : List (Nat × α)} {k : Nat} {w : α}
    (h : alookup l k = some w) (v : α) : alookup (setEntry l k v) k = some v := by
  induction l with
  | nil => simp [alookup] at h
  | cons hd tl ih =>
    obtain ⟨k2, v2⟩ := hd
    rw [alookup] at h
    rw [setEntry]
    by_cases hk : k2 = k
    · rw [if_pos hk, alookup, if_pos rfl]
    · rw [if_neg hk, alookup, if_neg hk]
      rw [if_neg hk] at h
      exact ih h

theorem alookup_setEntry_ne {α : Type} (l : List (Nat × α)) (k u : Nat) (v : α)
    (h : u ≠ k) : alookup (setEntry l k v) u = alookup l u := by
  induction l with
  | nil => rfl
  | cons hd tl ih =>
    obtain ⟨k2, v2⟩ := hd
    rw [setEntry]
    by_cases hk : k2 = k
    · subst hk
      rw [if_pos rfl, alookup, alookup, if_neg (fun hc => h hc.symm),
        if_neg (fun hc => h hc.symm)]
      exact ih
    · rw [if_neg hk, alookup, alookup]
      by_cases hu : k2 = u
      · rw [if_pos hu, if_pos hu]
      · rw [if_neg hu, if_neg hu]
        exact ih

theorem alookup_delEntry_self {α : Type} (l : List (Nat × α)) (k : Nat) :
    alookup (delEntry l k) k = none := by
  induction l with
  | nil => rfl
  | cons hd tl ih =>
    obtain ⟨k2, v2⟩ := hd
    rw [delEntry]
    by_cases hk : k2 = k
    · rw [if_pos hk]
      exact ih
    · rw [if_neg hk, alookup, if_neg hk]
      exact ih

theorem alookup_delEntry_ne {α : Type} (l : List (Nat × α)) (k u : Nat)
    (h : u ≠ k) : alookup (delEntry l k) u = alookup l u := by
  induction l with
  | nil => rfl
  | cons hd tl ih =>
    obtain ⟨k2, v2⟩ := hd
    rw [delEntry]
    by_cases hk : k2 = k
    · subst hk
      rw [if_pos rfl, alookup, if_neg (fun hc => h hc.symm)]
      exact ih
    · rw [if_neg hk, alookup, alookup]
      by_cases hu : k2 = u
      · rw [if_pos hu, if_pos hu]
      · rw [if_neg hu, if_neg hu]
        exact ih

theorem txnHandleOf_nullTxnHandle (s : State) (t : Nat) :
    txnHandleOf (nullTxnHandle s t) t = none := by
  rw [nullTxnHandle]
  cases hl : alookup s.txns t with
  | none => simp [txnHandleOf, hl]
  | some r => simp [txnHandleOf, alookup_setEntry_self hl]

theorem events_nullTxnHandle (s : State) (t : Nat) :
    (nullTxnHandle s t).events = s.events := by
  rw [nullTxnHandle]
  cases alookup s.txns t <;> rfl

/-- C1 counterexample: after the Environment is closed, the source's
activity check still reports the root transaction active (and
`transaction_check` passes, so a checked operation proceeds), whereas the
spec's recursive definition with root case "Environment is open" reports
it inactive.  The claim's "iff" therefore fails on this state. -/
theorem c1_counterexample :
    transaction_active closedEnvLiveTxn.txns 0 = true ∧
    transaction_check closedEnvLiveTxn.txns 0 = Except.ok () ∧
    (alookup closedEnvLiveTxn.envs 0).map EnvRec.env = some none ∧
    spec_active closedEnvLiveTxn 0 = false := by
  refine ⟨rfl, rfl, rfl, rfl⟩

/-- C1 (amended): on a well-formed heap the activity check satisfies
exactly the recursion "active iff own handle is non-null AND the parent is
active", with root case `true` for a parentless transaction — the owning
Environment's open state is not consulted (the check reads only the
transaction chain, as the type of `transaction_active` already shows). -/
theorem c1_active_chain (τ : List (Nat × TxnRec)) (hwf : wfTxns τ = true)
    (t : Nat) (r : TxnRec) (hl : alookup τ t = some r) :
    transaction_active τ t =
      (r.txn.isSome &&
        (match r.parent with
         | none => true
         | some p => transaction_active τ p)) := by
  rw [transaction_active, activeAux]
  simp only [hl]
  cases htxn : r.txn with
  | none => simp [htxn]
  | some h =>
    cases hp : r.parent with
    | none => simp [htxn, hp]
    | some p =>
      have hpt := (wfTxns_parent hwf hl hp).1
      simp only [htxn, hp, Option.isNone_some, if_false, Option.isSome_some, Bool.true_and]
      rw [transaction_active]
      exact activeAux_fuel hwf p t (p + 1) hpt (Nat.lt_succ_self p)

/-- C1 witness: the amended recurrence evaluated on `chainState`. -/
theorem c1_active_chain_witness :
    wfTxns chainState.txns = true ∧
    alookup chainState.txns 1 = some { txn := some 4, refcount := 1, parent := some 0, envId := 0 } ∧
    transaction_active chainState.txns 1 =
      ((some 4 : Option Nat).isSome &&
        (match (some 0 : Option Nat) with
         | none => true
         | some p => transaction_active chainState.txns p)) :=
  ⟨by decide, rfl,
    c1_active_chain chainState.txns (by decide) 1
      { txn := some 4, refcount := 1, parent := some 0, envId := 0 } rfl⟩

theorem getTxn_eq_error {s : State} {t : Nat} {r : TxnRec}
    (hl : alookup s.txns t = some r)
    (h : transaction_active s.txns t = false) :
    getTxn s t = Except.error Err.transactionTerminated := by
  rw [getTxn]
  simp only [hl, transaction_check, h, Bool.false_eq_true, if_false]
  rfl

theorem getTxn_eq_ok {s : State} {t : Nat} {r : TxnRec}
    (hl : alookup s.txns t = some r)
    (h : transaction_active s.txns t = true) :
    getTxn s t = Except.ok r := by
  rw [getTxn]
  simp only [hl, transaction_check, h, if_true]
  rfl

/-- C4 counterexample: on a terminated transaction, `environment()` and
`parent()` raise the terminated-transaction error instead of succeeding —
the `TRANSACTION` macro they use runs `transaction_check` like every other
operation, contradicting the claim that they skip the assertion. -/
theorem c4_counterexample :
    transaction_active terminatedTxnState.txns 0 = false ∧
    transaction_environment terminatedTxnState 0 = Except.error Err.transactionTerminated ∧
    transaction_parent terminatedTxnState 0 = Except.error Err.transactionTerminated := by
  refine ⟨rfl, rfl, rfl⟩

/-- C4 (amended): every Transaction operation — including `environment()`
and `parent()` — first asserts the validity-chain invariant and raises the
terminated-transaction error when the chain is not active; when the chain
is active, `environment()` and `parent()` return the stored links. -/
theorem c4_all_ops_check (s : State) (t : Nat) (r : TxnRec)
    (hl : alookup s.txns t = some r) :
    (transaction_active s.txns t = false →
      transaction_environment s t = Except.error Err.transactionTerminated ∧
      transaction_parent s t = Except.error Err.transactionTerminated ∧
      transaction_abort s t = Except.error Err.transactionTerminated ∧
      transaction_commit s t = Except.error Err.transactionTerminated ∧
      transaction_reset s t = Except.error Err.transactionTerminated ∧
      transaction_renew s t = Except.error Err.transactionTerminated ∧
      (∀ block, transaction_transaction s t block = Except.error Err.transactionTerminated) ∧
      (∀ vname vflags, database_open s t vname vflags = Except.error Err.transactionTerminated)) ∧
    (transaction_active s.txns t = true →
      transaction_environment s t = Except.ok r.envId ∧
      transaction_parent s t = Except.ok r.parent) := by
  constructor
  · intro hina
    refine ⟨?_, ?_, ?_, ?_, ?_, ?_, ?_, ?_⟩
    · rw [transaction_environment, getTxn_eq_error hl hina]
      rfl
    · rw [transaction_parent, getTxn_eq_error hl hina]
      rfl
    · rw [transaction_abort, getTxn_eq_error hl hina]
      rfl
    · rw [transaction_commit, getTxn_eq_error hl hina]
      rfl
    · rw [transaction_reset, getTxn_eq_error hl hina]
      rfl
    · rw [transaction_renew, getTxn_eq_error hl hina]
      rfl
    · intro block
      rw [transaction_transaction, getTxn_eq_error hl hina]
      rfl
    · intro vname vflags
      rw [database_open, getTxn_eq_error hl hina]
      rfl
  · intro hact
    constructor
    · rw [transaction_environment, getTxn_eq_ok hl hact]
      rfl
    · rw [transaction_parent, getTxn_eq_ok hl hact]
      rfl

/-- C4 witness: the checks evaluated on a terminated and on an active
transaction. -/
theorem c4_all_ops_check_witness :
    transaction_renew terminatedTxnState 0 = Except.error Err.transactionTerminated ∧
    transaction_environment chainState 0 = Except.ok 0 :=
  ⟨((c4_all_ops_check terminatedTxnState 0
      { txn := none, refcount := 1, parent := none, envId := 0 } rfl).1 rfl).2.2.2.2.2.1,
   ((c4_all_ops_check chainState 0
      { txn := some 2, refcount := 1, parent := none, envId := 0 } rfl).2 rfl).1⟩

/-- C5: on an active chain, `commit` and `abort` null exactly this
transaction's own handle: the updated record keeps its refcount, parent
and environment links, every other transaction record is unchanged, and
the environment, database, cursor, table and freshness components of the
state are untouched (only the engine-call trace grows by the one
commit/abort call);
on an inactive chain both raise the terminated-transaction error because
the validity check runs again at entry. -/
theorem c5_commit_abort_frame (s : State) (t : Nat) (r : TxnRec)
    (hl : alookup s.txns t = some r) :
    (transaction_active s.txns t = true →
      (∃ s', transaction_abort s t = Except.ok s' ∧
        alookup s'.txns t = some { r with txn := none } ∧
        (∀ u, u ≠ t → alookup s'.txns u = alookup s.txns u) ∧
        s'.envs = s.envs ∧ s'.dbs = s.dbs ∧ s'.curs = s.curs ∧ s'.tables = s.tables ∧
        s'.fresh = s.fresh ∧
        s'.events = s.events ++ [Event.txn_abort r.txn]) ∧
      (∃ s', transaction_commit s t = Except.ok s' ∧
        alookup s'.txns t = some { r with txn := none } ∧
        (∀ u, u ≠ t → alookup s'.txns u = alookup s.txns u) ∧
        s'.envs = s.envs ∧ s'.dbs = s.dbs ∧ s'.curs = s.curs ∧ s'.tables = s.tables ∧
        s'.fresh = s.fresh ∧
        s'.events = s.events ++ [Event.txn_commit r.txn])) ∧
    (transaction_active s.txns t = false →
      transaction_abort s t = Except.error Err.transactionTerminated ∧
      transaction_commit s t = Except.error Err.transactionTerminated) := by
  constructor
  · intro hact
    constructor
    · refine ⟨{ s with txns := setEntry s.txns t { r with txn := none }, events := s.events ++ [Event.txn_abort r.txn] }, ?_, ?_, ?_, rfl, rfl, rfl, rfl, rfl, rfl⟩
      · rw [transaction_abort, getTxn_eq_ok hl hact]
        rfl
      · exact alookup_setEntry_self hl _
      · intro u hu
        exact alookup_setEntry_ne _ _ _ _ hu
    · refine ⟨{ s with txns := setEntry s.txns t { r with txn := none }, events := s.events ++ [Event.txn_commit r.txn] }, ?_, ?_, ?_, rfl, rfl, rfl, rfl, rfl, rfl⟩
      · rw [transaction_commit, getTxn_eq_ok hl hact]
        rfl
      · exact alookup_setEntry_self hl _
      · intro u hu
        exact alookup_setEntry_ne _ _ _ _ hu
  · intro hina
    constructor
    · rw [transaction_abort, getTxn_eq_error hl hina]
      rfl
    · rw [transaction_commit, getTxn_eq_error hl hina]
      rfl

/-- C5 witness: abort on the active child of `chainState`. -/
theorem c5_commit_abort_frame_witness :
    transaction_active chainState.txns 1 = true ∧
    (∃ s', transaction_abort chainState 1 = Except.ok s' ∧
      alookup s'.txns 1 = some { txn := none, refcount := 1, parent := some 0, envId := 0 } ∧
      (∀ u, u ≠ 1 → alookup s'.txns u = alookup chainState.txns u) ∧
      s'.envs = chainState.envs ∧ s'.dbs = chainState.dbs ∧ s'.curs = chainState.curs ∧
      s'.tables = chainState.tables ∧ s'.fresh = chainState.fresh ∧
      s'.events = chainState.events ++ [Event.txn_abort (some 4)]) :=
  ⟨by decide,
    ((c5_commit_abort_frame chainState 1
      { txn := some 4, refcount := 1, parent := some 0, envId := 0 } rfl).1 (by decide)).1⟩

theorem getEnv_eq_ok {s : State} {e : Nat} {r : EnvRec} {h : Nat}
    (hl : alookup s.envs e = some r) (hh : r.env = some h) :
    getEnv s e = Except.ok r := by
  rw [getEnv]
  simp only [hl, environment_check, hh, Option.isNone_some, Bool.false_eq_true, if_false]
  rfl

theorem getEnv_eq_error {s : State} {e : Nat} {r : EnvRec}
    (hl : alookup s.envs e = some r) (hh : r.env = none) :
    getEnv s e = Except.error Err.environmentClosed := by
  rw [getEnv]
  simp only [hl, environment_check, hh, Option.isNone_none, if_true]
  rfl

/-- C7: the first close of an open Environment nulls the handle, leaves
the refcount (and every other state component) unchanged and issues the
engine close; a second close on the resulting state raises the closed
error, because the guard check runs again on the now-null handle; and on
any state, every Environment accessor raises the closed error whenever the
handle is null. -/
theorem c7_close_terminal (s : State) (e : Nat) (r : EnvRec) (h : Nat)
    (hl : alookup s.envs e = some r) (hh : r.env = some h) :
    (∃ s', environment_close s e = Except.ok s' ∧
      alookup s'.envs e = some { r with env := none } ∧
      (∀ u, u ≠ e → alookup s'.envs u = alookup s.envs u) ∧
      s'.txns = s.txns ∧ s'.dbs = s.dbs ∧ s'.curs = s.curs ∧
      s'.tables = s.tables ∧ s'.fresh = s.fresh ∧
      s'.events = s.events ++ [Event.env_close (some h)] ∧
      environment_close s' e = Except.error Err.environmentClosed) ∧
    (∀ s2 e2 r2, alookup s2.envs e2 = some r2 → r2.env = none →
      environment_close s2 e2 = Except.error Err.environmentClosed ∧
      environment_stat s2 e2 = Except.error Err.environmentClosed ∧
      environment_info s2 e2 = Except.error Err.environmentClosed ∧
      (∀ p, environment_copy s2 e2 p = Except.error Err.environmentClosed) ∧
      (∀ f, environment_sync s2 e2 f = Except.error Err.environmentClosed) ∧
      environment_path s2 e2 = Except.error Err.environmentClosed ∧
      environment_flags s2 e2 = Except.error Err.environmentClosed ∧
      (∀ ro blk, environment_transaction s2 e2 ro blk = Except.error Err.environmentClosed)) := by
  constructor
  · obtain ⟨env0, rc⟩ := r
    simp only [EnvRec.env] at hh
    subst hh
    refine ⟨{ s with envs := setEntry s.envs e { env := none, refcount := rc }, events := s.events ++ [Event.env_close (some h)] }, ?_, ?_, ?_, rfl, rfl, rfl, rfl, rfl, rfl, ?_⟩
    · rw [environment_close, getEnv_eq_ok hl rfl]
      rfl
    · exact alookup_setEntry_self hl _
    · intro u hu
      exact alookup_setEntry_ne _ _ _ _ hu
    · rw [environment_close,
        getEnv_eq_error (alookup_setEntry_self hl { env := none, refcount := rc }) rfl]
      rfl
  · intro s2 e2 r2 hl2 hh2
    refine ⟨?_, ?_, ?_, ?_, ?_, ?_, ?_, ?_⟩
    · rw [environment_close, getEnv_eq_error hl2 hh2]
      rfl
    · rw [environment_stat, getEnv_eq_error hl2 hh2]
      rfl
    · rw [environment_info, getEnv_eq_error hl2 hh2]
      rfl
    · intro p
      rw [environment_copy, getEnv_eq_error hl2 hh2]
      rfl
    · intro f
      rw [environment_sync, getEnv_eq_error hl2 hh2]
      rfl
    · rw [environment_path, getEnv_eq_error hl2 hh2]
      rfl
    · rw [environment_flags, getEnv_eq_error hl2 hh2]
      rfl
    · intro ro blk
      rw [environment_transaction, getEnv_eq_error hl2 hh2]
      rfl

/-- C7 witness: closing the open environment of `chainState`. -/
theorem c7_close_terminal_witness :
    ∃ s', environment_close chainState 0 = Except.ok s' ∧
      alookup s'.envs 0 = some { env := none, refcount := 3 } ∧
      (∀ u, u ≠ 0 → alookup s'.envs u = alookup chainState.envs u) ∧
      s'.txns = chainState.txns ∧ s'.dbs = chainState.dbs ∧ s'.curs = chainState.curs ∧
      s'.tables = chainState.tables ∧ s'.fresh = chainState.fresh ∧
      s'.events = chainState.events ++ [Event.env_close (some 1)] ∧
      environment_close s' 0 = Except.error Err.environmentClosed :=
  (c7_close_terminal chainState 0 { env := some 1, refcount := 3 } 1 rfl rfl).1

/-- C10: the numeric force indicator handed to the engine sync call is the
negation of the caller's request — a truthy `force` argument yields 0, an
absent or falsy one yields 1. -/
theorem c10_sync_force (s : State) (e : Nat) (r : EnvRec) (h : Nat)
    (hl : alookup s.envs e = some r) (hh : r.env = some h) :
    (environment_sync s e (some true) = Except.ok (emit s (Event.env_sync (some h) 0))) ∧
    (∀ force, force = none ∨ force = some false →
      environment_sync s e force = Except.ok (emit s (Event.env_sync (some h) 1))) := by
  obtain ⟨env0, rc⟩ := r
  simp only [EnvRec.env] at hh
  subst hh
  constructor
  · rw [environment_sync, getEnv_eq_ok hl rfl]
    rfl
  · intro force hf
    rw [environment_sync, getEnv_eq_ok hl rfl]
    rcases hf with hf | hf <;> subst hf <;> rfl

/-- C10 witness: sync on `chainState` with a truthy and with no argument. -/
theorem c10_sync_force_witness :
    environment_sync chainState 0 (some true)
      = Except.ok (emit chainState (Event.env_sync (some 1) 0)) ∧
    environment_sync chainState 0 none
      = Except.ok (emit chainState (Event.env_sync (some 1) 1)) :=
  ⟨(c10_sync_force chainState 0 { env := some 1, refcount := 3 } 1 rfl rfl).1,
   (c10_sync_force chainState 0 { env := some 1, refcount := 3 } 1 rfl rfl).2 none (Or.inl rfl)⟩

theorem except_bind_ok {α β : Type} (a : α) (f : α → Except Err β) :
    (Except.ok a >>= f) = f a := rfl

theorem environment_transaction_unfold (s : State) (e : Nat) (er : EnvRec) (h : Nat)
    (hl : alookup s.envs e = some er) (hh : er.env = some h) (ro : Option Bool)
    (block : Option Block) :
    environment_transaction s e ro block =
      Except.ok (scoped_block_finish
        { envs := setEntry s.envs e { er with refcount := er.refcount + 1 },
          txns := s.txns ++ [(s.fresh + 1, { txn := some s.fresh, refcount := 1, parent := none, envId := e })],
          dbs := s.dbs, curs := s.curs, tables := s.tables, fresh := s.fresh + 2,
          events := s.events ++ [Event.txn_begin er.env none (if ro.isSome then MDB_RDONLY else 0) s.fresh] }
        (s.fresh + 1) block) := by
  rw [environment_transaction, getEnv_eq_ok hl hh]
  rfl

theorem transaction_transaction_unfold (s : State) (t : Nat) (r : TxnRec) (er : EnvRec)
    (hl : alookup s.txns t = some r) (ha : transaction_active s.txns t = true)
    (hle : alookup s.envs r.envId = some er) (block : Option Block) :
    transaction_transaction s t block =
      Except.ok (scoped_block_finish
        { envs := setEntry s.envs r.envId { er with refcount := er.refcount + 1 },
          txns := s.txns ++ [(s.fresh + 1, { txn := some s.fresh, refcount := 1, parent := some t, envId := r.envId })],
          dbs := s.dbs, curs := s.curs, tables := s.tables, fresh := s.fresh + 2,
          events := s.events ++ [Event.txn_begin er.env r.txn 0 s.fresh] }
        (s.fresh + 1) block) := by
  rw [transaction_transaction, getTxn_eq_ok hl ha]
  simp only [except_bind_ok, emit, hle]

theorem scoped_block_finish_run (s1 : State) (tid : Nat) (body : Block) (s2 : State) :
    (∀ tag, body tid s1 = (s2, Except.error tag) →
      scoped_block_finish s1 tid (some body) = (Except.error tag,
        nullTxnHandle (emit s2 (Event.txn_abort (txnHandleOf s2 tid))) tid)) ∧
    (∀ v, body tid s1 = (s2, Except.ok v) →
      scoped_block_finish s1 tid (some body) = (Except.ok v,
        nullTxnHandle (emit s2 (Event.txn_commit (txnHandleOf s2 tid))) tid)) := by
  constructor <;> intro x hb <;> simp only [scoped_block_finish, hb]

/-- C2: for a scoped transaction block — root (`environment_transaction`)
or nested (`transaction_transaction`), pinned down here as the creation the
blockless call performs — a body that raises has its transaction aborted
and the same exception tag propagated, a body that returns normally has
its transaction committed and its value returned, and in both cases the
transaction's handle field is null when control leaves the block. -/
theorem c2_scoped_block :
    (∀ s e er h ro body tid s1,
      alookup s.envs e = some er → er.env = some h →
      environment_transaction s e ro none = Except.ok (Except.ok tid, s1) →
      (∀ s2 tag, body tid s1 = (s2, Except.error tag) →
        ∃ s4, environment_transaction s e ro (some body) = Except.ok (Except.error tag, s4) ∧
          s4.events = s2.events ++ [Event.txn_abort (txnHandleOf s2 tid)] ∧
          txnHandleOf s4 tid = none) ∧
      (∀ s2 v, body tid s1 = (s2, Except.ok v) →
        ∃ s4, environment_transaction s e ro (some body) = Except.ok (Except.ok v, s4) ∧
          s4.events = s2.events ++ [Event.txn_commit (txnHandleOf s2 tid)] ∧
          txnHandleOf s4 tid = none)) ∧
    (∀ s t r er body tid s1,
      alookup s.txns t = some r → transaction_active s.txns t = true →
      alookup s.envs r.envId = some er →
      transaction_transaction s t none = Except.ok (Except.ok tid, s1) →
      (∀ s2 tag, body tid s1 = (s2, Except.error tag) →
        ∃ s4, transaction_transaction s t (some body) = Except.ok (Except.error tag, s4) ∧
          s4.events = s2.events ++ [Event.txn_abort (txnHandleOf s2 tid)] ∧
          txnHandleOf s4 tid = none) ∧
      (∀ s2 v, body tid s1 = (s2, Except.ok v) →
        ∃ s4, transaction_transaction s t (some body) = Except.ok (Except.ok v, s4) ∧
          s4.events = s2.events ++ [Event.txn_commit (txnHandleOf s2 tid)] ∧
          txnHandleOf s4 tid = none)) := by
  constructor
  · intro s e er h ro body tid s1 hl hh hnone
    rw [environment_transaction_unfold s e er h hl hh ro none] at hnone
    simp only [scoped_block_finish, Except.ok.injEq, Prod.mk.injEq] at hnone
    obtain ⟨htid, hs1⟩ := hnone
    subst htid
    subst hs1
    constructor
    · intro s2 tag hb
      refine ⟨nullTxnHandle (emit s2 (Event.txn_abort (txnHandleOf s2 (s.fresh + 1)))) (s.fresh + 1), ?_, ?_, txnHandleOf_nullTxnHandle _ _⟩
      · rw [environment_transaction_unfold s e er h hl hh ro (some body),
          (scoped_block_finish_run _ _ body s2).1 tag hb]
      · rw [events_nullTxnHandle]
        rfl
    · intro s2 v hb
      refine ⟨nullTxnHandle (emit s2 (Event.txn_commit (txnHandleOf s2 (s.fresh + 1)))) (s.fresh + 1), ?_, ?_, txnHandleOf_nullTxnHandle _ _⟩
      · rw [environment_transaction_unfold s e er h hl hh ro (some body),
          (scoped_block_finish_run _ _ body s2).2 v hb]
      · rw [events_nullTxnHandle]
        rfl
  · intro s t r er body tid s1 hl ha hle hnone
    rw [transaction_transaction_unfold s t r er hl ha hle none] at hnone
    simp only [scoped_block_finish, Except.ok.injEq, Prod.mk.injEq] at hnone
    obtain ⟨htid, hs1⟩ := hnone
    subst htid
    subst hs1
    constructor
    · intro s2 tag hb
      refine ⟨nullTxnHandle (emit s2 (Event.txn_abort (txnHandleOf s2 (s.fresh + 1)))) (s.fresh + 1), ?_, ?_, txnHandleOf_nullTxnHandle _ _⟩
      · rw [transaction_transaction_unfold s t r er hl ha hle (some body),
          (scoped_block_finish_run _ _ body s2).1 tag hb]
      · rw [events_nullTxnHandle]
        rfl
    · intro s2 v hb
      refine ⟨nullTxnHandle (emit s2 (Event.txn_commit (txnHandleOf s2 (s.fresh + 1)))) (s.fresh + 1), ?_, ?_, txnHandleOf_nullTxnHandle _ _⟩
      · rw [transaction_transaction_unfold s t r er hl ha hle (some body),
          (scoped_block_finish_run _ _ body s2).2 v hb]
      · rw [events_nullTxnHandle]
        rfl

/-- C2 witness: a raising body under a root scoped block aborts and
re-raises tag 6; a normally returning body under a nested scoped block
commits and returns 99; both leave the handle null. -/
theorem c2_scoped_block_witness :
    (∃ s4, environment_transaction chainState 0 none (some abortBody)
        = Except.ok (Except.error 6, s4) ∧
      s4.events = envTxnCreated.events ++ [Event.txn_abort (txnHandleOf envTxnCreated 11)] ∧
      txnHandleOf s4 11 = none) ∧
    (∃ s4, transaction_transaction chainState 0 (some commitBody)
        = Except.ok (Except.ok 99, s4) ∧
      s4.events = nestedTxnCreated.events ++ [Event.txn_commit (txnHandleOf nestedTxnCreated 11)] ∧
      txnHandleOf s4 11 = none) :=
  ⟨(c2_scoped_block.1 chainState 0 { env := some 1, refcount := 3 } 1 none abortBody 11
      envTxnCreated rfl rfl rfl).1 envTxnCreated 6 rfl,
   (c2_scoped_block.2 chainState 0 { txn := some 2, refcount := 1, parent := none, envId := 0 }
      { env := some 1, refcount := 3 } commitBody 11 nestedTxnCreated rfl (by decide) rfl
      rfl).2 nestedTxnCreated 99 rfl⟩

/-- C3 counterexample: transaction 1 reaches refcount zero with its own
handle still non-null (`some 5`), yet finalization issues no abort — the
code gates the implicit abort on `transaction_active`, i.e. on the whole
chain, and the terminated parent makes the chain inactive.  The record is
still freed. -/
theorem c3_counterexample :
    (alookup derefOrphanState.txns 1).map TxnRec.txn = some (some 5) ∧
    (transaction_deref 2 derefOrphanState 1).events = [] ∧
    alookup (transaction_deref 2 derefOrphanState 1).txns 1 = none := by
  refine ⟨rfl, rfl, rfl⟩

/-- C3 (amended): when a Transaction's refcount reaches zero it is
finalized — the record is freed, the parent Transaction's refcount is
decremented, and the Environment's refcount is decremented — and an
implicit abort is issued before release iff the transaction's whole
validity chain is still active (not merely iff its own handle is
non-null). -/
theorem c3_deref_finalize (s : State) (t p : Nat) (r pr : TxnRec) (er : EnvRec)
    (hwf : wfTxns s.txns = true)
    (hl : alookup s.txns t = some r) (hrc : r.refcount = 1)
    (hp : r.parent = some p) (hlp : alookup s.txns p = some pr)
    (hprc : pr.refcount ≠ 1)
    (hle : alookup s.envs r.envId = some er) (herc : er.refcount ≠ 1) :
    ∃ s', transaction_deref (t + 1) s t = s' ∧
      alookup s'.txns t = none ∧
      alookup s'.txns p = some { pr with refcount := pr.refcount - 1 } ∧
      alookup s'.envs r.envId = some { er with refcount := er.refcount - 1 } ∧
      s'.events = (if transaction_active s.txns t then s.events ++ [Event.txn_abort r.txn]
                   else s.events) := by
  have hpt : p < t := (wfTxns_parent hwf hl hp).1
  have hcond : r.refcount - 1 = 0 := by rw [hrc]; ring
  have hpcond : ¬ pr.refcount - 1 = 0 := fun hc => hprc (sub_eq_zero.mp hc)
  have hecond : ¬ er.refcount - 1 = 0 := fun hc => herc (sub_eq_zero.mp hc)
  have hne : p ≠ t := Nat.ne_of_lt hpt
  obtain ⟨g, rfl⟩ := Nat.exists_eq_add_of_lt hpt
  cases hact : transaction_active s.txns (p + g + 1) with
  | true =>
    refine ⟨State.mk (setEntry s.envs r.envId { er with refcount := er.refcount - 1 })
      (delEntry (setEntry s.txns p { pr with refcount := pr.refcount - 1 }) (p + g + 1))
      s.dbs s.curs s.tables s.fresh (s.events ++ [Event.txn_abort r.txn]), ?_, ?_, ?_, ?_, ?_⟩
    · rw [transaction_deref]
      simp only [hl, hcond, if_pos rfl, hact, if_true, hp]
      rw [transaction_deref]
      simp only [emit, hlp, if_neg hpcond, environment_deref, hle, if_neg hecond]
    · exact alookup_delEntry_self _ _
    · rw [alookup_delEntry_ne _ _ _ hne]
      exact alookup_setEntry_self hlp _
    · exact alookup_setEntry_self hle _
    · simp [hact]
  | false =>
    refine ⟨State.mk (setEntry s.envs r.envId { er with refcount := er.refcount - 1 })
      (delEntry (setEntry s.txns p { pr with refcount := pr.refcount - 1 }) (p + g + 1))
      s.dbs s.curs s.tables s.fresh s.events, ?_, ?_, ?_, ?_, ?_⟩
    · rw [transaction_deref]
      simp only [hl, hcond, if_pos rfl, hact, Bool.false_eq_true, if_false, hp]
      rw [transaction_deref]
      simp only [hlp, if_neg hpcond, environment_deref, hle, if_neg hecond]
      rw [if_pos trivial]
    · exact alookup_delEntry_self _ _
    · rw [alookup_delEntry_ne _ _ _ hne]
      exact alookup_setEntry_self hlp _
    · exact alookup_setEntry_self hle _
    · simp [hact]

/-- C3 witness: finalizing transaction 1 of `derefActiveState` aborts it
(chain active), frees it, and decrements the parent and environment
refcounts. -/
theorem c3_deref_finalize_witness :
    ∃ s', transaction_deref 2 derefActiveState 1 = s' ∧
      alookup s'.txns 1 = none ∧
      alookup s'.txns 0 = some { txn := some 2, refcount := 1, parent := none, envId := 0 } ∧
      alookup s'.envs 0 = some { env := some 1, refcount := 2 } ∧
      s'.events = (if transaction_active derefActiveState.txns 1
                   then derefActiveState.events ++ [Event.txn_abort (some 5)]
                   else derefActiveState.events) :=
  c3_deref_finalize derefActiveState 1 0
    { txn := some 5, refcount := 1, parent := some 0, envId := 0 }
    { txn := some 2, refcount := 2, parent := none, envId := 0 }
    { env := some 1, refcount := 3 }
    (by decide) rfl rfl rfl rfl (by decide) rfl (by decide)

/-- C6: `database_open` drops the caller's flags.  `rb_scan_args(argc,
argv, "11", ...)` returns 1 or 2, but the code forwards the flags only
when `n == 3`, so the engine's table-open call always receives flags 0:
opening with `MDB_CREATE` (262144) emits a `dbi_open` call with flags 0.
The spec (and the claim) state the flags are passed through unchanged,
which is clearly the intent of the `n == 3 ? NUM2INT(vflags) : 0`
expression; the code is the slip. -/
theorem c6_flags_dropped :
    MDB_CREATE = 262144 ∧
    (database_open chainState 0 "testdb" (some MDB_CREATE)).map (fun res => res.2.events)
      = Except.ok [Event.dbi_open (some 2) "testdb" 0 10] := by
  refine ⟨rfl, rfl⟩

theorem database_check_eq_ok {s : State} {d : Nat} {db : DbRec}
    (hl : alookup s.dbs d = some db)
    (ha : transaction_active s.txns db.txnId = true)
    (ho : db.open_flag = true) :
    database_check s d = Except.ok db := by
  rw [database_check]
  simp only [hl, transaction_check, ha, if_true, ho]
  rfl

/-- C8: on a usable Database and an active argument transaction, `drop`
removes the named table from the engine and sets this Database's open flag
to false, leaving its `dbi` and transaction link (and every other
database, transaction and environment record) unchanged; `clear` empties
the table and changes no wrapper state at all — in particular the open
flag stays true and the handle remains usable. -/
theorem c8_drop_clear (s : State) (d t : Nat) (db : DbRec) (tr : TxnRec)
    (hld : alookup s.dbs d = some db)
    (hdba : transaction_active s.txns db.txnId = true)
    (ho : db.open_flag = true)
    (hlt : alookup s.txns t = some tr)
    (hta : transaction_active s.txns t = true) :
    (∃ s', database_drop s d t = Except.ok s' ∧
      alookup s'.tables db.dbi = none ∧
      alookup s'.dbs d = some { db with open_flag := false } ∧
      (∀ u, u ≠ d → alookup s'.dbs u = alookup s.dbs u) ∧
      s'.txns = s.txns ∧ s'.envs = s.envs ∧ s'.curs = s.curs ∧ s'.fresh = s.fresh ∧
      s'.events = s.events ++ [Event.mdb_drop_call tr.txn db.dbi 1]) ∧
    (∀ tbl, alookup s.tables db.dbi = some tbl →
      ∃ s', database_clear s d t = Except.ok s' ∧
        alookup s'.tables db.dbi = some [] ∧
        s'.dbs = s.dbs ∧ s'.txns = s.txns ∧ s'.envs = s.envs ∧ s'.curs = s.curs ∧
        s'.fresh = s.fresh ∧
        s'.events = s.events ++ [Event.mdb_drop_call tr.txn db.dbi 0]) := by
  constructor
  · refine ⟨State.mk s.envs s.txns (setEntry s.dbs d { db with open_flag := false })
      s.curs (delEntry s.tables db.dbi) s.fresh
      (s.events ++ [Event.mdb_drop_call tr.txn db.dbi 1]), ?_, ?_, ?_, ?_, rfl, rfl, rfl, rfl, rfl⟩
    · rw [database_drop, database_check_eq_ok hld hdba ho, except_bind_ok,
        getTxn_eq_ok hlt hta, except_bind_ok]
      rfl
    · exact alookup_delEntry_self _ _
    · exact alookup_setEntry_self hld _
    · intro u hu
      exact alookup_setEntry_ne _ _ _ _ hu
  · intro tbl htbl
    refine ⟨State.mk s.envs s.txns s.dbs s.curs (setEntry s.tables db.dbi []) s.fresh
      (s.events ++ [Event.mdb_drop_call tr.txn db.dbi 0]), ?_, ?_, rfl, rfl, rfl, rfl, rfl, rfl⟩
    · rw [database_clear, database_check_eq_ok hld hdba ho, except_bind_ok,
        getTxn_eq_ok hlt hta, except_bind_ok]
      rfl
    · exact alookup_setEntry_self htbl _

/-- C8 witness: drop and clear evaluated on `dbState`. -/
theorem c8_drop_clear_witness :
    (∃ s', database_drop dbState 0 0 = Except.ok s' ∧
      alookup s'.tables 7 = none ∧
      alookup s'.dbs 0 = some { dbi := 7, txnId := 0, open_flag := false } ∧
      (∀ u, u ≠ 0 → alookup s'.dbs u = alookup dbState.dbs u) ∧
      s'.txns = dbState.txns ∧ s'.envs = dbState.envs ∧ s'.curs = dbState.curs ∧
      s'.fresh = dbState.fresh ∧
      s'.events = dbState.events ++ [Event.mdb_drop_call (some 2) 7 1]) ∧
    (∃ s', database_clear dbState 0 0 = Except.ok s' ∧
      alookup s'.tables 7 = some [] ∧
      s'.dbs = dbState.dbs ∧ s'.txns = dbState.txns ∧ s'.envs = dbState.envs ∧
      s'.curs = dbState.curs ∧ s'.fresh = dbState.fresh ∧
      s'.events = dbState.events ++ [Event.mdb_drop_call (some 2) 7 0]) :=
  ⟨(c8_drop_clear dbState 0 0 { dbi := 7, txnId := 0, open_flag := true }
      { txn := some 2, refcount := 2, parent := none, envId := 0 }
      rfl (by decide) rfl rfl (by decide)).1,
   (c8_drop_clear dbState 0 0 { dbi := 7, txnId := 0, open_flag := true }
      { txn := some 2, refcount := 2, parent := none, envId := 0 }
      rfl (by decide) rfl rfl (by decide)).2 [("k", "v")] rfl⟩

theorem alookup_append_right {α : Type} (l1 l2 : List (Nat × α)) (k : Nat)
    (h : alookup l1 k = none) : alookup (l1 ++ l2) k = alookup l2 k := by
  induction l1 with
  | nil => rfl
  | cons hd tl ih =>
    obtain ⟨k2, v2⟩ := hd
    rw [alookup] at h
    by_cases hk : k2 = k
    · rw [if_pos hk] at h
      exact absurd h (by simp)
    · rw [if_neg hk] at h
      rw [List.cons_append, alookup, if_neg hk]
      exact ih h

/-- The engine-call trace produced by `environment_open` with an options
hash, in closed form. -/
theorem environment_open_events (s : State) (path : String) (o : OpenOptions) :
    (environment_open s path (some o)).1.events
      = s.events ++ [Event.env_create s.fresh]
        ++ (if o.maxreaders.getD (-1) > 0
            then [Event.env_set_maxreaders (o.maxreaders.getD (-1))] else [])
        ++ (if o.mapsize.getD 0 > 0 then [Event.env_set_mapsize (o.mapsize.getD 0)] else [])
        ++ [Event.env_set_maxdbs (if o.maxdbs.getD 10 ≤ 0 then 1 else o.maxdbs.getD 10),
            Event.env_open_call path (o.flags.getD 0) (o.mode.getD 493)] := by
  rw [environment_open]
  dsimp only
  split_ifs <;> simp [emit, List.append_assoc]

/-- C9: with no options, `environment_open` uses flags 0 and maxdbs 10 and
issues no maxreaders/mapsize setup calls; the constructed Environment
record always has refcount 1; a supplied maxreaders or mapsize reaches the
engine iff it is positive; and a supplied non-positive maxdbs is replaced
by 1. -/
theorem c9_open_defaults (s : State) (path : String) :
    ((environment_open s path none).1.events
      = s.events ++ [Event.env_create s.fresh, Event.env_set_maxdbs 10,
          Event.env_open_call path 0 493]) ∧
    (∀ opts, (environment_open s path opts).1.envs
      = s.envs ++ [((environment_open s path opts).2,
          { env := some s.fresh, refcount := 1 })]) ∧
    (∀ o m, o.maxreaders = some m →
      (Event.env_set_maxreaders m
          ∈ ((environment_open s path (some o)).1.events.drop s.events.length) ↔ 0 < m)) ∧
    (∀ o m, o.mapsize = some m →
      (Event.env_set_mapsize m
          ∈ ((environment_open s path (some o)).1.events.drop s.events.length) ↔ 0 < m)) ∧
    (∀ o m, o.maxdbs = some m → m ≤ 0 →
      Event.env_set_maxdbs 1
        ∈ ((environment_open s path (some o)).1.events.drop s.events.length)) := by
  refine ⟨?_, ?_, ?_, ?_, ?_⟩
  · rw [environment_open]
    simp [emit, List.append_assoc]
  · intro opts
    cases opts with
    | none =>
      rw [environment_open]
      dsimp only
      split_ifs <;> rfl
    | some o =>
      rw [environment_open]
      dsimp only
      split_ifs <;> rfl
  · intro o m hm
    rw [environment_open_events]
    simp only [hm, Option.getD_some, List.append_assoc, List.drop_left]
    by_cases hpos : 0 < m
    · rw [if_pos hpos]
      simp [hpos]
    · rw [if_neg hpos]
      split_ifs <;> simp [hpos]
  · intro o m hm
    rw [environment_open_events]
    simp only [hm, Option.getD_some, List.append_assoc, List.drop_left]
    by_cases hpos : 0 < m
    · rw [if_pos hpos]
      simp [hpos]
    · rw [if_neg hpos]
      split_ifs <;> simp [hpos]
  · intro o m hm hle
    rw [environment_open_events]
    simp only [hm, Option.getD_some, List.append_assoc, List.drop_left]
    rw [if_pos hle]
    simp

/-- C9 witness: a call with no options and a call with non-positive
maxdbs, zero mapsize and positive maxreaders. -/
theorem c9_open_defaults_witness :
    ((environment_open dbState "p" none).1.events
      = dbState.events ++ [Event.env_create 10, Event.env_set_maxdbs 10,
          Event.env_open_call "p" 0 493]) ∧
    (Event.env_set_maxreaders 3
      ∈ ((environment_open dbState "p"
          (some { maxreaders := some 3, maxdbs := some 0, mapsize := some 0 })).1.events.drop
            dbState.events.length) ↔ (0 : Int) < 3) ∧
    (Event.env_set_maxdbs 1
      ∈ ((environment_open dbState "p"
          (some { maxreaders := some 3, maxdbs := some 0, mapsize := some 0 })).1.events.drop
            dbState.events.length)) :=
  ⟨(c9_open_defaults dbState "p").1,
   (c9_open_defaults dbState "p").2.2.1 { maxreaders := some 3, maxdbs := some 0, mapsize := some 0 } 3 rfl,
   (c9_open_defaults dbState "p").2.2.2.2 { maxreaders := some 3, maxdbs := some 0, mapsize := some 0 } 0 rfl (by decide)⟩

end LmdbExt
